import Mathlib

/-!
Verification of the game-night-buzzer turn timer (src/Pi-LCD/timer-lcd.py).

This file gives a shallow embedding of the core of the program:

* the two-player turn-timer state machine (globals `state`, `active_player`,
  `deadline`, functions `start_turn`, `next_player`, `on_press`, and the
  TIMEOUT transition of the main polling loop),
* the LED indicator bank (`lights_for`),
* the HD44780-over-PCF8574 LCD driver (`lcd_write`, `lcd_write_four_bits`,
  `lcd_strobe`, `lcd_clear`, `lcd_display_string`, `init_hw`), modelled both
  as pure wire traces and as fallible computations over an I2C fault oracle,
* the I2C recovery path (`i2c_device.reopen`, `soft_reset`, `lcd_safe_show`).

Machine time (Python `monotonic()`) is modelled in whole seconds as `Int`;
the deadlines the program computes are `now + TURN_SECONDS` with integer
`TURN_SECONDS`, and `int(round(d - now))` is the identity on integers, so
no precision is lost for the properties below.  Sleeps are recorded in
microseconds.
-/

namespace Buzzer

/-! ## Configuration constants (timer-lcd.py, CONFIG section) -/

def TURN_SECONDS : Int := 10
def WARN_YELLOW : Int := 4
def WARN_RED : Int := 2

/-! ## LCD controller constants (class lcd, timer-lcd.py lines 49-79) -/

def LCD_CLEARDISPLAY : Nat := 0x01
def LCD_RETURNHOME : Nat := 0x02
def LCD_ENTRYMODESET : Nat := 0x04
def LCD_DISPLAYCONTROL : Nat := 0x08
def LCD_FUNCTIONSET : Nat := 0x20
def LCD_SETDDRAMADDR : Nat := 0x80

def LCD_ENTRYLEFT : Nat := 0x02

def LCD_DISPLAYON : Nat := 0x04
def LCD_CURSOROFF : Nat := 0x00
def LCD_BLINKOFF : Nat := 0x00

def LCD_4BITMODE : Nat := 0x00
def LCD_2LINE : Nat := 0x08
def LCD_5x8DOTS : Nat := 0x00

def LCD_BACKLIGHT : Nat := 0x08

def En : Nat := 0b00000100
def Rw : Nat := 0b00000010
def Rs : Nat := 0b00000001

/-- Python `data & ~En` on a nonnegative int: clear the enable bit.
Subtracting `data &&& En` removes exactly the enable bit when set. -/
def andNotEn (data : Nat) : Nat := data - (data &&& En)

/-! ## Text formatting

`lcd_display_string` does `string.ljust(16)[:16]` (truncate to 16 columns,
right-pad with spaces); `lcd_safe_show` renders the two f-strings
`"Player " + player` and `"Time: " + remaining right-justified in 3 + "s"`. -/

def pad16 (s : String) : String :=
  String.mk ((s.toList ++ List.replicate (16 - s.toList.length) ' ').take 16)

/-- Python format spec `>3`: right-justify in a field of width 3. -/
def rjust3 (s : String) : String :=
  if s.length < 3 then String.mk (List.replicate (3 - s.length) ' ') ++ s else s

def timeText (remaining : Nat) : String :=
  "Time: " ++ rjust3 (toString remaining) ++ "s"

/-! ## Timer session state machine (timer-lcd.py lines 145-147, 191-218, 226-233)

The three globals `state`, `active_player`, `deadline` are gathered into a
`Session` record; `deadline` starts as Python `None`, hence `Option Int`. -/

inductive Phase
  | IDLE
  | P1_RUNNING
  | P2_RUNNING
  | TIMEOUT
  deriving DecidableEq, Repr

structure Session where
  state : Phase
  active_player : Nat
  deadline : Option Int
  deriving DecidableEq, Repr

/-- `start_turn(player)` (lines 191-196): sets all three globals; the LED /
LCD / buzzer side effects carry no session state. -/
def start_turn (player : Nat) (now : Int) : Session :=
  { state := if player = 1 then Phase.P1_RUNNING else Phase.P2_RUNNING
    active_player := player
    deadline := some (now + TURN_SECONDS) }

/-- `next_player()` (lines 209-210). -/
def next_player (s : Session) (now : Int) : Session :=
  start_turn (if s.active_player = 1 then 2 else 1) now

/-- `on_press()` (lines 212-218), the debounced button callback. -/
def on_press (s : Session) (now : Int) : Session :=
  if s.state = Phase.IDLE ∨ s.state = Phase.TIMEOUT then
    start_turn
      (if s.state = Phase.IDLE then 1
       else if s.active_player = 1 then 2 else 1) now
  else
    next_player s now

/-- `remaining = max(0, int(round(deadline - monotonic())))` (line 228). -/
def remaining_of (deadline : Int) (now : Int) : Int :=
  max 0 (deadline - now)

/-- The session mutation performed by one iteration of the main polling loop
(lines 226-233): while a turn is running, compute the remaining time and
move to TIMEOUT when it has reached zero; `active_player` and `deadline`
are left untouched.  In any other phase the loop only sleeps. -/
def tick (s : Session) (now : Int) : Session :=
  if s.state = Phase.P1_RUNNING ∨ s.state = Phase.P2_RUNNING then
    if remaining_of (s.deadline.getD 0) now ≤ 0 then
      { s with state := Phase.TIMEOUT }
    else s
  else s

/-- Sessions reachable from process start (`state = "IDLE"`,
`active_player = 1`, `deadline = None`) under the button callback and the
polling loop. -/
inductive Reach : Session → Prop
  | init : Reach ⟨Phase.IDLE, 1, none⟩
  | trigger (s : Session) (now : Int) : Reach s → Reach (on_press s now)
  | poll (s : Session) (now : Int) : Reach s → Reach (tick s now)

/-! ## Indicator bank (`lights_for`, timer-lcd.py lines 166-172)

The triple is (green, yellow, red); the function sets all three outputs on
every call. -/

def lights_for (remaining : Int) : Bool × Bool × Bool :=
  if remaining > WARN_YELLOW then (true, false, false)
  else if remaining > WARN_RED then (false, true, false)
  else (false, false, true)

/-! ## Claim C1 -/

/-- Claim C1: the trigger and expiry transitions of the session state
machine are exactly: IDLE --trigger--> TURN(1) with a fresh deadline;
TURN(p) --trigger--> TURN(other p) with the deadline freshly reset to
`now + TURN_SECONDS` (not a continuation of the old deadline `d`);
TURN(p) --expiry--> TIMEOUT, taken by the polling loop exactly when
`deadline ≤ now`, keeping `active_player = p` (and the stale deadline);
TIMEOUT --trigger--> TURN(other active_party); and the polling loop does
not change the session in IDLE or TIMEOUT. -/
theorem session_state_machine (ap : Nat) (d : Option Int) (dl now : Int) :
    on_press ⟨Phase.IDLE, ap, d⟩ now
        = ⟨Phase.P1_RUNNING, 1, some (now + TURN_SECONDS)⟩
    ∧ on_press ⟨Phase.P1_RUNNING, 1, d⟩ now
        = ⟨Phase.P2_RUNNING, 2, some (now + TURN_SECONDS)⟩
    ∧ on_press ⟨Phase.P2_RUNNING, 2, d⟩ now
        = ⟨Phase.P1_RUNNING, 1, some (now + TURN_SECONDS)⟩
    ∧ on_press ⟨Phase.TIMEOUT, 1, d⟩ now
        = ⟨Phase.P2_RUNNING, 2, some (now + TURN_SECONDS)⟩
    ∧ on_press ⟨Phase.TIMEOUT, 2, d⟩ now
        = ⟨Phase.P1_RUNNING, 1, some (now + TURN_SECONDS)⟩
    ∧ tick ⟨Phase.P1_RUNNING, 1, some dl⟩ now
        = (if dl ≤ now then ⟨Phase.TIMEOUT, 1, some dl⟩
           else ⟨Phase.P1_RUNNING, 1, some dl⟩)
    ∧ tick ⟨Phase.P2_RUNNING, 2, some dl⟩ now
        = (if dl ≤ now then ⟨Phase.TIMEOUT, 2, some dl⟩
           else ⟨Phase.P2_RUNNING, 2, some dl⟩)
    ∧ tick ⟨Phase.IDLE, ap, d⟩ now = ⟨Phase.IDLE, ap, d⟩
    ∧ tick ⟨Phase.TIMEOUT, ap, d⟩ now = ⟨Phase.TIMEOUT, ap, d⟩ := by
  have hmax : ∀ x : Int, (max 0 (x - now) ≤ 0) = (x ≤ now) := by
    intro x
    simp only [eq_iff_iff, max_le_iff]
    omega
  refine ⟨?_, ?_, ?_, ?_, ?_, ?_, ?_, ?_, ?_⟩ <;>
    simp only [on_press, next_player, start_turn, tick, remaining_of,
      Option.getD_some, hmax] <;>
    simp

/-! ## Claim C3 -/

/-- Claim C3: for every remaining time `n ≥ 0`, exactly one of the three
indicator outputs is active after `lights_for n`, and the band mapping is
CRITICAL (red) iff `n ≤ WARN_RED`, WARNING (yellow) iff
`WARN_RED < n ≤ WARN_YELLOW`, NORMAL (green) otherwise. -/
theorem lights_for_bands (n : Nat) :
    (lights_for n = (true, false, false)
      ∨ lights_for n = (false, true, false)
      ∨ lights_for n = (false, false, true))
    ∧ (lights_for n = (false, false, true) ↔ (n : Int) ≤ WARN_RED)
    ∧ (lights_for n = (false, true, false)
        ↔ (WARN_RED < (n : Int) ∧ (n : Int) ≤ WARN_YELLOW))
    ∧ (lights_for n = (true, false, false) ↔ WARN_YELLOW < (n : Int)) := by
  simp only [lights_for, WARN_RED, WARN_YELLOW]
  split_ifs with h1 h2 <;>
    refine ⟨by simp, ?_, ?_, ?_⟩ <;>
      simp [Prod.ext_iff] <;> omega

/-! ## High-level LCD trace

One event per `self.lcd_write(cmd, mode)` call, plus the explicit sleeps
of `lcd_clear` (0.002 s) and `init_hw` (0.2 s), in microseconds.  This is
the granularity of the logical command stream; the nibble/strobe framing
of each `lcd_write` is modelled separately below (claim C6). -/

inductive LEv
  | w (cmd : Nat) (mode : Nat)
  | sl (us : Nat)
  deriving DecidableEq, Repr

/-- `lcd_clear` (lines 116-119): clear-display, return-home, 2 ms settle. -/
def lcd_clear_hl : List LEv :=
  [LEv.w LCD_CLEARDISPLAY 0, LEv.w LCD_RETURNHOME 0, LEv.sl 2000]

/-- `init_hw` (lines 86-93): the 4-bit init sequence, basic config,
`lcd_clear`, then a 0.2 s settle. -/
def init_hw_hl : List LEv :=
  [LEv.w 0x03 0, LEv.w 0x03 0, LEv.w 0x03 0, LEv.w 0x02 0,
   LEv.w (LCD_FUNCTIONSET ||| LCD_2LINE ||| LCD_5x8DOTS ||| LCD_4BITMODE) 0,
   LEv.w (LCD_DISPLAYCONTROL ||| LCD_DISPLAYON ||| LCD_CURSOROFF ||| LCD_BLINKOFF) 0,
   LEv.w (LCD_ENTRYMODESET ||| LCD_ENTRYLEFT) 0]
  ++ lcd_clear_hl ++ [LEv.sl 200000]

/-- `lcd_display_string(string, line)` (lines 121-129): set the DDRAM
address for the line, then write `string.ljust(16)[:16]` as data bytes
(`mode = Rs`). -/
def lcd_display_string_hl (s : String) (line : Nat) : List LEv :=
  (if line = 1 then [LEv.w (LCD_SETDDRAMADDR ||| 0x00) 0]
   else if line = 2 then [LEv.w (LCD_SETDDRAMADDR ||| 0x40) 0]
   else [])
  ++ (pad16 s).toList.map (fun ch => LEv.w ch.toNat Rs)

/-- The fault-free path of `lcd_safe_show(player, remaining)`
(lines 157-164): rows 1 and 2 via the two f-strings. -/
def lcd_safe_show_hl (player : String) (remaining : Nat) : List LEv :=
  lcd_display_string_hl ("Player " ++ player) 1
  ++ lcd_display_string_hl (timeText remaining) 2

/-- The fault-free path of `lcd_idle(msg_top, msg_bot)` (lines 180-189):
`lcd_safe_clear()`, then `lcd_safe_show(msg_top, 0)` — the top message is
routed through the per-turn formatter (the `isinstance` test returns the
string unchanged) — then line 2 is overwritten with `msg_bot`. -/
def lcd_idle_hl (msg_top : String) (msg_bot : String) : List LEv :=
  lcd_clear_hl ++ lcd_safe_show_hl msg_top 0
  ++ lcd_display_string_hl msg_bot 2

/-! ## Claim C4 -/

/-- Auxiliary: `ljust(16)[:16]` really is truncate-then-right-pad. -/
theorem pad16_toList (s : String) :
    (pad16 s).toList
      = s.toList.take 16 ++ List.replicate (16 - s.toList.length) ' ' := by
  show (s.toList ++ List.replicate (16 - s.toList.length) ' ').take 16 = _
  rcases Nat.le_total s.toList.length 16 with h | h
  · rw [List.take_of_length_le, List.take_of_length_le h]
    rw [List.length_append, List.length_replicate]
    omega
  · have h0 : 16 - s.toList.length = 0 := by omega
    rw [h0]
    simp

/-- Claim C4: for each row index and every text, `lcd_display_string`
first issues the set-DDRAM-address command for the row's base address
(0x80 ||| 0x00 for row 1, 0x80 ||| 0x40 for row 2) and then emits exactly
16 character writes: the text truncated to 16 characters and right-padded
with spaces. -/
theorem write_row_exact (s : String) :
    lcd_display_string_hl s 1
      = LEv.w (0x80 ||| 0x00) 0
          :: (pad16 s).toList.map (fun ch => LEv.w ch.toNat Rs)
    ∧ lcd_display_string_hl s 2
      = LEv.w (0x80 ||| 0x40) 0
          :: (pad16 s).toList.map (fun ch => LEv.w ch.toNat Rs)
    ∧ ((pad16 s).toList.map (fun ch => LEv.w ch.toNat Rs)).length = 16
    ∧ (pad16 s).toList
        = s.toList.take 16 ++ List.replicate (16 - s.toList.length) ' ' := by
  refine ⟨by simp [lcd_display_string_hl, LCD_SETDDRAMADDR],
          by simp [lcd_display_string_hl, LCD_SETDDRAMADDR],
          ?_, pad16_toList s⟩
  rw [List.length_map, pad16_toList]
  simp only [List.length_append, List.length_take, List.length_replicate]
  omega

/-! ## Claim C7 -/

/-- Claim C7: `init_hw` issues exactly, in order: 0x03, 0x03, 0x03, 0x02
(legacy 8-to-4-bit reset), function-set 0x28 (4-bit, two lines, 5x8 font),
display-control 0x0C (display on, cursor off, blink off), entry-mode 0x06
(cursor increment set, display-content shifting NOT enabled), then
clear+home with its 2 ms settle, followed by a settle delay of 200000 us
(at least 0.2 s) as the final event before any other operation. -/
theorem init_sequence_exact :
    init_hw_hl
      = [LEv.w 0x03 0, LEv.w 0x03 0, LEv.w 0x03 0, LEv.w 0x02 0,
         LEv.w 0x28 0, LEv.w 0x0C 0, LEv.w 0x06 0,
         LEv.w 0x01 0, LEv.w 0x02 0, LEv.sl 2000, LEv.sl 200000]
    ∧ 0x28 = LCD_FUNCTIONSET ||| LCD_2LINE ||| LCD_5x8DOTS ||| LCD_4BITMODE
    ∧ 0x0C = LCD_DISPLAYCONTROL ||| LCD_DISPLAYON ||| LCD_CURSOROFF ||| LCD_BLINKOFF
    ∧ 0x06 = LCD_ENTRYMODESET ||| LCD_ENTRYLEFT
    ∧ 0x06 &&& 0x02 = 0x02
    ∧ 0x06 &&& 0x01 = 0x00
    ∧ init_hw_hl.getLast? = some (LEv.sl 200000)
    ∧ 200000 ≥ 200000 := by
  refine ⟨by decide, by decide, by decide, by decide, by decide, by decide,
          ?_, le_refl _⟩
  decide

/-! ## Claim C10 -/

/-- Claim C10: rendering the idle screen with its default arguments sends
row 1 the 16 characters "Player Press to " — the idle top message goes
through the per-turn formatter, which prepends "Player " and truncates to
16 — not the bare "Press to start"; row 2 is first written as the padded
"Time:   0s" line and only afterwards overwritten with the idle bottom
message. -/
theorem idle_screen_rows :
    lcd_idle_hl "Press to start" "   Game Timer"
      = lcd_clear_hl
        ++ (LEv.w 0x80 0
              :: "Player Press to ".toList.map (fun ch => LEv.w ch.toNat Rs))
        ++ (LEv.w 0xC0 0
              :: "Time:   0s      ".toList.map (fun ch => LEv.w ch.toNat Rs))
        ++ (LEv.w 0xC0 0
              :: "   Game Timer   ".toList.map (fun ch => LEv.w ch.toNat Rs)) := by
  decide

/-! ## Low-level bus trace (nibble framing, timer-lcd.py lines 100-113)

One `wr` event per `i2c_device.write_cmd` bus byte; `sl` events record the
sleeps in microseconds (`write_cmd` sleeps 100 us after each byte,
`lcd_strobe` additionally 500 us after asserting enable and 100 us after
clearing it). -/

inductive BusEv
  | wr (b : Nat)
  | sl (us : Nat)
  deriving DecidableEq, Repr

/-- `write_cmd` (lines 45-47): one bus byte, then `sleep(0.0001)`. -/
def write_cmd_tr (b : Nat) : List BusEv := [BusEv.wr b, BusEv.sl 100]

/-- `lcd_strobe(data)` (lines 101-105). -/
def lcd_strobe_tr (data : Nat) : List BusEv :=
  write_cmd_tr (data ||| En ||| LCD_BACKLIGHT) ++ [BusEv.sl 500]
  ++ write_cmd_tr (andNotEn data ||| LCD_BACKLIGHT) ++ [BusEv.sl 100]

/-- `lcd_write_four_bits(data)` (lines 107-109). -/
def lcd_write_four_bits_tr (data : Nat) : List BusEv :=
  write_cmd_tr (data ||| LCD_BACKLIGHT) ++ lcd_strobe_tr data

/-- `lcd_write(cmd, mode)` (lines 111-113): high nibble then low nibble. -/
def lcd_write_tr (cmd : Nat) (mode : Nat) : List BusEv :=
  lcd_write_four_bits_tr (mode ||| (cmd &&& 0xF0))
  ++ lcd_write_four_bits_tr (mode ||| ((cmd <<< 4) &&& 0xF0))

/-! ## Claim C6 -/

/-- Auxiliary: setting the backlight bit with `|||` makes it read back. -/
theorem lor_backlight_land (a : Nat) : (a ||| 8) &&& 8 = 8 := by
  apply Nat.eq_of_testBit_eq
  intro i
  rw [Nat.testBit_land, Nat.testBit_lor]
  cases h : (8 : Nat).testBit i <;> simp [h]

/-- Auxiliary: a nibble-payload byte `mode ||| (x &&& 0xF0)` with
`mode ∈ {0, 1}` has the enable bit clear, so Python `data & ~En` leaves
it unchanged: the strobe really re-sends the same nibble. -/
theorem andNotEn_nibble (x : Nat) (rs : Bool) :
    andNotEn ((cond rs 1 0) ||| (x &&& 0xF0)) = (cond rs 1 0) ||| (x &&& 0xF0) := by
  have hz : ((cond rs 1 0) ||| (x &&& 0xF0)) &&& En = 0 := by
    apply Nat.eq_of_testBit_eq
    intro i
    rw [Nat.testBit_land, Nat.zero_testBit]
    by_cases h2 : i = 2
    · subst h2
      rw [Nat.testBit_lor, Nat.testBit_land]
      have hx : Nat.testBit 240 2 = false := by decide
      have hrs : (cond rs 1 0).testBit 2 = false := by cases rs <;> decide
      simp [hrs, hx]
    · have h4 : En.testBit i = false := by
        have h : En = 2 ^ 2 := rfl
        rw [h, Nat.testBit_two_pow_of_ne (fun hc => h2 hc.symm)]
      simp [h4]
  rw [andNotEn, hz, Nat.sub_zero]

/-- Claim C6: every logical command or character byte is transmitted high
nibble first then low nibble; every byte placed on the bus carries the
backlight bit 0x08; and each nibble is latched by a strobe that writes the
nibble with enable asserted, holds 100 + 500 us (at least 0.5 ms), then
writes the same nibble (`andNotEn` is the identity here) with enable
cleared and holds 100 + 100 us (at least 0.1 ms).  `mode` ranges over the
two register-select values the program uses, `0` and `Rs = 1`. -/
theorem nibble_framing_backlight_strobe (cmd : Nat) (rs : Bool) :
    lcd_write_tr cmd (cond rs 1 0)
      = lcd_write_four_bits_tr ((cond rs 1 0) ||| (cmd &&& 0xF0))
        ++ lcd_write_four_bits_tr ((cond rs 1 0) ||| ((cmd <<< 4) &&& 0xF0))
    ∧ ((lcd_write_tr cmd (cond rs 1 0)).all (fun e =>
          match e with
          | BusEv.wr b => b &&& 8 == 8
          | BusEv.sl _ => true)) = true
    ∧ (∀ d : Nat,
        lcd_write_four_bits_tr d
          = [BusEv.wr (d ||| LCD_BACKLIGHT), BusEv.sl 100,
             BusEv.wr (d ||| En ||| LCD_BACKLIGHT), BusEv.sl 100, BusEv.sl 500,
             BusEv.wr (andNotEn d ||| LCD_BACKLIGHT), BusEv.sl 100, BusEv.sl 100])
    ∧ andNotEn ((cond rs 1 0) ||| (cmd &&& 0xF0))
        = (cond rs 1 0) ||| (cmd &&& 0xF0)
    ∧ andNotEn ((cond rs 1 0) ||| ((cmd <<< 4) &&& 0xF0))
        = (cond rs 1 0) ||| ((cmd <<< 4) &&& 0xF0)
    ∧ 100 + 500 ≥ 500
    ∧ 100 + 100 ≥ 100 := by
  refine ⟨rfl, ?_, fun d => rfl, andNotEn_nibble cmd rs,
          andNotEn_nibble (cmd <<< 4) rs, by omega, by omega⟩
  have hb : ∀ a : Nat, ((a ||| 8) &&& 8 == 8) = true := by
    intro a
    simp [lor_backlight_land a]
  simp only [lcd_write_tr, lcd_write_four_bits_tr, lcd_strobe_tr, write_cmd_tr,
    LCD_BACKLIGHT, List.all_append, List.all_cons, List.all_nil]
  simp [hb]

/-! ## Claim C5

The invariant claimed by the spec is "deadline is present iff
phase = TURN(_)".  The program never clears the `deadline` global after a
turn starts: the TIMEOUT transition (line 232-233) only rewrites `state`,
so after TURN -> TIMEOUT the stale deadline is still present. -/

def inv_deadline_iff_turn (s : Session) : Prop :=
  s.deadline ≠ none
    ↔ (s.state = Phase.P1_RUNNING ∨ s.state = Phase.P2_RUNNING)

/-- The concrete reachable session refuting the claimed invariant: press
at t = 0 (TURN(1), deadline 10), then let the polling loop run at t = 10. -/
def sessCE : Session := tick (on_press ⟨Phase.IDLE, 1, none⟩ 0) 10

/-- Claim C5 counterexample: `sessCE` is reachable, its phase is TIMEOUT,
yet its deadline is still `some 10` — so "deadline present iff
phase = TURN(_)" fails right after the TURN -> TIMEOUT transition. -/
theorem deadline_iff_turn_cex :
    Reach sessCE
    ∧ sessCE.state = Phase.TIMEOUT
    ∧ sessCE.deadline = some 10
    ∧ ¬ inv_deadline_iff_turn sessCE := by
  refine ⟨Reach.poll _ 10 (Reach.trigger _ 0 Reach.init), ?_, ?_, ?_⟩ <;>
    simp [sessCE, inv_deadline_iff_turn, on_press, next_player, start_turn,
      tick, remaining_of, TURN_SECONDS]

/-- Claim C5 amended: in every reachable state the forward direction holds
— `phase = TURN(_)` implies the deadline is present — and the deadline is
absent only in the initial IDLE state (in particular, after
TURN -> TIMEOUT the stale deadline remains present, so the claimed "iff"
fails in that direction). -/
theorem deadline_presence_inv (s : Session) (h : Reach s) :
    ((s.state = Phase.P1_RUNNING ∨ s.state = Phase.P2_RUNNING)
        → s.deadline ≠ none)
    ∧ (s.deadline = none → s.state = Phase.IDLE) := by
  induction h with
  | init => exact ⟨by simp, fun _ => rfl⟩
  | trigger s now hr ih =>
      have hd : (on_press s now).deadline = some (now + TURN_SECONDS) := by
        rw [on_press]
        split <;> simp [start_turn, next_player]
      constructor
      · intro _
        rw [hd]
        simp
      · intro hnone
        rw [hd] at hnone
        cases hnone
  | poll s now hr ih =>
      by_cases hrun : s.state = Phase.P1_RUNNING ∨ s.state = Phase.P2_RUNNING
      · by_cases hexp : remaining_of (s.deadline.getD 0) now ≤ 0
        · have ht : tick s now = { s with state := Phase.TIMEOUT } := by
            simp [tick, hrun, hexp]
          rw [ht]
          constructor
          · intro hcontra
            simp at hcontra
          · intro hnone
            simp at hnone
            have := ih.2 hnone
            rcases hrun with h1 | h1 <;> rw [h1] at this <;> cases this
        · have ht : tick s now = s := by
            simp [tick, hrun, hexp]
          rw [ht]
          exact ih
      · have ht : tick s now = s := by
          simp [tick, hrun]
        rw [ht]
        exact ih

/-- Witness for the amended C5 theorem, at the reachable state `sessCE`. -/
theorem deadline_presence_inv_witness :
    Reach sessCE
    ∧ (((sessCE.state = Phase.P1_RUNNING ∨ sessCE.state = Phase.P2_RUNNING)
          → sessCE.deadline ≠ none)
       ∧ (sessCE.deadline = none → sessCE.state = Phase.IDLE)) :=
  ⟨Reach.poll _ 10 (Reach.trigger _ 0 Reach.init),
   deadline_presence_inv sessCE
     (Reach.poll _ 10 (Reach.trigger _ 0 Reach.init))⟩

/-! ## Claim C9: `i2c_device.reopen` (timer-lcd.py lines 37-44)

`reopen` wraps only the `close()` call in try/except; the
`smbus.SMBus(self.port)` constructor — which opens the bus device and
raises on failure — sits outside the try block.  The environment records
whether each of the two underlying operations would raise. -/

structure ReopenEnv where
  closeRaises : Bool
  openRaises : Bool
  deriving DecidableEq, Repr

/-- `reopen` modelled over the environment: the release step runs first
and its exception is swallowed (its outcome does not influence the
result); then the fresh-handle acquisition runs unguarded, so its failure
propagates out of `reopen` itself. -/
def reopen (env : ReopenEnv) : Except Unit Unit :=
  let _release : Except Unit Unit :=
    if env.closeRaises then Except.error () else Except.ok ()
  if env.openRaises then Except.error () else Except.ok ()

/-- Claim C9 counterexample: when acquiring the fresh handle fails,
`reopen` itself fails instead of returning normally — refuting "reopen
never fails" and "the fault surfaces only on the next write_byte". -/
theorem reopen_can_fail_cex :
    reopen ⟨false, true⟩ = Except.error () := rfl

/-- Claim C9 amended: errors while releasing the old bus handle are
swallowed (with the open succeeding, `reopen` returns normally whether or
not `close` raised), but if acquiring the fresh handle fails the
exception propagates out of `reopen` itself. -/
theorem reopen_release_swallowed_open_propagates (env : ReopenEnv) :
    (env.openRaises = false → reopen env = Except.ok ())
    ∧ (env.openRaises = true → reopen env = Except.error ()) := by
  constructor <;> intro h <;> simp [reopen, h]

/-- Witness for the amended C9 theorem: `close()` raises, the open
succeeds, and `reopen` returns normally. -/
theorem reopen_release_swallowed_witness :
    (ReopenEnv.mk true false).openRaises = false
    ∧ reopen ⟨true, false⟩ = Except.ok () :=
  ⟨rfl, (reopen_release_swallowed_open_propagates ⟨true, false⟩).1 rfl⟩

/-! ## Fallible I2C model (fault injection)

Every `i2c_device.write_cmd` call is one bus transaction that either
succeeds or raises `OSError`.  A run is indexed by a fault oracle: the
n-th bus write of the process succeeds iff `oracle n` is true.  A
computation takes the oracle and the index of the next write and returns
the Python outcome — normal return or a propagating `OSError` — together
with the next write index (a failing transaction still consumes its
index; execution of the aborted operation stops at the raise, exactly as
the exception unwinds the Python call). -/

abbrev Oracle := Nat → Bool

def Proc : Type := Oracle → Nat → Except Unit Unit × Nat

/-- Normal return, no bus traffic. -/
def pok : Proc := fun _ k => (Except.ok (), k)

/-- Sequencing: run `y` only if `x` returned normally; a raise in `x`
propagates past `y`. -/
def pseq (x y : Proc) : Proc := fun or k =>
  match x or k with
  | (Except.ok _, k2) => y or k2
  | (Except.error e, k2) => (Except.error e, k2)

def pall : List Proc → Proc
  | [] => pok
  | p :: ps => pseq p (pall ps)

/-- Python try/except OSError: on a raise in `body`, control passes to
`handler` (whose own raise propagates). -/
def ptry (body handler : Proc) : Proc := fun or k =>
  match body or k with
  | (Except.ok _, k2) => (Except.ok (), k2)
  | (Except.error _, k2) => handler or k2

/-- `write_cmd` (lines 45-47): one bus write, judged by the oracle. -/
def write_cmdF (_b : Nat) : Proc := fun or k =>
  ((if or k then Except.ok () else Except.error ()), k + 1)

def lcd_strobeF (data : Nat) : Proc :=
  pseq (write_cmdF (data ||| En ||| LCD_BACKLIGHT))
       (write_cmdF (andNotEn data ||| LCD_BACKLIGHT))

def lcd_write_four_bitsF (data : Nat) : Proc :=
  pseq (write_cmdF (data ||| LCD_BACKLIGHT)) (lcd_strobeF data)

def lcd_writeF (cmd : Nat) (mode : Nat) : Proc :=
  pseq (lcd_write_four_bitsF (mode ||| (cmd &&& 0xF0)))
       (lcd_write_four_bitsF (mode ||| ((cmd <<< 4) &&& 0xF0)))

def lcd_clearF : Proc :=
  pseq (lcd_writeF LCD_CLEARDISPLAY 0) (lcd_writeF LCD_RETURNHOME 0)

/-- `init_hw` (lines 86-93) as a fallible run (54 bus writes). -/
def init_hwF : Proc :=
  pall [lcd_writeF 0x03 0, lcd_writeF 0x03 0, lcd_writeF 0x03 0,
        lcd_writeF 0x02 0,
        lcd_writeF (LCD_FUNCTIONSET ||| LCD_2LINE ||| LCD_5x8DOTS ||| LCD_4BITMODE) 0,
        lcd_writeF (LCD_DISPLAYCONTROL ||| LCD_DISPLAYON ||| LCD_CURSOROFF ||| LCD_BLINKOFF) 0,
        lcd_writeF (LCD_ENTRYMODESET ||| LCD_ENTRYLEFT) 0,
        lcd_clearF]

/-- `i2c_device.reopen` issues no data write; at this level of the model
an open failure surfaces as faults of the subsequent writes through the
oracle (claim C9 models the open failure of `reopen` itself explicitly). -/
def reopenF : Proc := pok

/-- `soft_reset` (lines 95-98): reopen the bus, then re-run `init_hw`. -/
def soft_resetF : Proc := pseq reopenF init_hwF

def writeCharsF : List Char → Proc
  | [] => pok
  | c :: cs => pseq (lcd_writeF c.toNat Rs) (writeCharsF cs)

def lcd_display_stringF (s : String) (line : Nat) : Proc :=
  pseq (if line = 1 then lcd_writeF (LCD_SETDDRAMADDR ||| 0x00) 0
        else if line = 2 then lcd_writeF (LCD_SETDDRAMADDR ||| 0x40) 0
        else pok)
       (writeCharsF (pad16 s).toList)

/-- The body of one attempt of `lcd_safe_show` (lines 160-162): both rows
(204 bus writes when fault-free). -/
def showBodyF (player : String) (remaining : Nat) : Proc :=
  pseq (lcd_display_stringF ("Player " ++ player) 1)
       (lcd_display_stringF (timeText remaining) 2)

/-- `lcd_safe_show` (lines 157-164): `for attempt in range(2)` unrolled —
try the body, on OSError `soft_reset` and try the body once more, on a
second OSError `soft_reset` again and fall off the loop (normal return). -/
def lcd_safe_showF (player : String) (remaining : Nat) : Proc :=
  ptry (showBodyF player remaining)
       (pseq soft_resetF
         (ptry (showBodyF player remaining) soft_resetF))

/-! ## Claim C2 -/

/-- Fault oracle for the C2 counterexample: exactly the bus writes at
indices 0 and 55 fail — the first write of each of the two display
attempts — while every write issued by the recovery resets succeeds. -/
def oracleCE : Oracle := fun k => !(k == 0 || k == 55)

/-- Claim C2 counterexample: under `oracleCE` the first display attempt
raises, the retried attempt raises as well, and yet `lcd_safe_showF`
returns normally — the second TransportFault is silently suppressed
instead of propagating to the caller. -/
theorem lcd_safe_show_no_propagation_cex :
    showBodyF "1" 5 oracleCE 0 = (Except.error (), 1)
    ∧ showBodyF "1" 5 oracleCE 55 = (Except.error (), 56)
    ∧ lcd_safe_showF "1" 5 oracleCE 0 = (Except.ok (), 110) :=
  ⟨rfl, rfl, rfl⟩

/-- Claim C2 amended: on a fault in the first attempt, `lcd_safe_show`
reopens the bus and re-runs device setup (`soft_reset`) and retries the
original operation exactly once; but if the retried attempt also fails,
the fault is swallowed — one more `soft_reset` runs and the call returns
normally (no propagation to the caller; only an OSError raised inside a
`soft_reset` itself can escape). -/
theorem lcd_safe_show_swallows_second_fault (or : Oracle) (p : String)
    (r : Nat) (k k1 k2 k3 k4 : Nat) :
    (showBodyF p r or k = (Except.ok (), k1)
        → lcd_safe_showF p r or k = (Except.ok (), k1))
    ∧ (showBodyF p r or k = (Except.error (), k1)
        → soft_resetF or k1 = (Except.ok (), k2)
        → showBodyF p r or k2 = (Except.ok (), k3)
        → lcd_safe_showF p r or k = (Except.ok (), k3))
    ∧ (showBodyF p r or k = (Except.error (), k1)
        → soft_resetF or k1 = (Except.ok (), k2)
        → showBodyF p r or k2 = (Except.error (), k3)
        → soft_resetF or k3 = (Except.ok (), k4)
        → lcd_safe_showF p r or k = (Except.ok (), k4)) := by
  refine ⟨?_, ?_, ?_⟩
  · intro h1
    simp [lcd_safe_showF, ptry, h1]
  · intro h1 h2 h3
    simp [lcd_safe_showF, ptry, pseq, h1, h2, h3]
  · intro h1 h2 h3 h4
    simp [lcd_safe_showF, ptry, pseq, h1, h2, h3, h4]

/-- Witness for the amended C2 theorem: a concrete double-fault run in
which the recovery resets succeed and the call returns normally. -/
theorem lcd_safe_show_swallows_second_fault_witness :
    showBodyF "2" 7 oracleCE 0 = (Except.error (), 1)
    ∧ soft_resetF oracleCE 1 = (Except.ok (), 55)
    ∧ showBodyF "2" 7 oracleCE 55 = (Except.error (), 56)
    ∧ soft_resetF oracleCE 56 = (Except.ok (), 110)
    ∧ lcd_safe_showF "2" 7 oracleCE 0 = (Except.ok (), 110) :=
  ⟨rfl, rfl, rfl, rfl,
   (lcd_safe_show_swallows_second_fault oracleCE "2" 7 0 1 55 56 110).2.2
     rfl rfl rfl rfl⟩

/-! ## Claim C8: interleaving of the trigger callback with a rendering tick

timer-lcd.py keeps `state`, `active_player` and `deadline` as bare module
globals with no lock; the gpiozero button callback runs `start_turn` in a
separate thread while the main loop renders.  The small-step embedding
below takes the individual global accesses as the atomic steps — a
granularity CPython's thread switching permits — with both threads' own
program order preserved:

* `start_turn` (lines 193-196) writes `active_player`, then `deadline`,
  then `state`;
* one rendering tick reads `state` (line 227), then `deadline`
  (line 228), then `active_player` (line 230, the argument of
  `lcd_safe_show`).

An interleaving is given by the number of trigger writes already executed
before each read: cuts `a ≤ b ≤ c`. -/

inductive TrigStep
  | wPlayer (p : Nat)
  | wDeadline (d : Int)
  | wState (ph : Phase)
  deriving DecidableEq, Repr

def applyStep (g : Session) : TrigStep → Session
  | TrigStep.wPlayer p => { g with active_player := p }
  | TrigStep.wDeadline d => { g with deadline := some d }
  | TrigStep.wState ph => { g with state := ph }

/-- The atomic global writes of `start_turn(player)` at time `now`, in
program order (lines 194, 195, 196). -/
def start_turn_steps (player : Nat) (now : Int) : List TrigStep :=
  [TrigStep.wPlayer player,
   TrigStep.wDeadline (now + TURN_SECONDS),
   TrigStep.wState (if player = 1 then Phase.P1_RUNNING else Phase.P2_RUNNING)]

/-- The globals after the first `n` trigger steps have executed. -/
def gAt (g0 : Session) (ts : List TrigStep) (n : Nat) : Session :=
  (ts.take n).foldl applyStep g0

/-- What one rendering tick observes under the interleaving `(a, b, c)`:
it tests the phase read after `a` trigger steps, and — when a turn is
seen running — renders the player read after `c` steps together with the
remaining time computed from the deadline read after `b` steps. -/
def tickObs (g0 : Session) (ts : List TrigStep) (now : Int)
    (a b c : Nat) : Option (Nat × Int) :=
  if (gAt g0 ts a).state = Phase.P1_RUNNING
      ∨ (gAt g0 ts a).state = Phase.P2_RUNNING then
    some ((gAt g0 ts c).active_player,
          remaining_of ((gAt g0 ts b).deadline.getD 0) now)
  else none

/-- What a tick renders from a single consistent session snapshot — the
only observations an atomic (lock-guarded) trigger mutation would allow
are `snapshotObs` of the pre-trigger or of the post-trigger session. -/
def snapshotObs (g : Session) (now : Int) : Option (Nat × Int) :=
  if g.state = Phase.P1_RUNNING ∨ g.state = Phase.P2_RUNNING then
    some (g.active_player, remaining_of (g.deadline.getD 0) now)
  else none

/-- Party 1's turn is running with deadline 10 when the button is pressed
at t = 4, triggering `start_turn(2)`. -/
def g0CE : Session := ⟨Phase.P1_RUNNING, 1, some 10⟩

def stepsCE : List TrigStep := start_turn_steps 2 4

/-- Claim C8: the claim says the trigger handler's mutation of
(phase, party, deadline) is applied as a single atomic step relative to
the polling loop's read, guarded by a mutual-exclusion primitive, so no
tick ever renders a pair drawn from a torn session.  The code has no such
guard, and this fails at the stated interleaving: with party 1 running
(deadline 10) and `start_turn(2)` triggered at t = 4, a tick scheduled
entirely between the `active_player = 2` write and the `deadline` write
(cuts a = b = c = 1, a valid interleaving: 1 ≤ 1 ≤ 1 ≤ 3) renders
player 2 with party 1's remaining time 6 — an observation equal to
neither the pre-trigger snapshot (player 1, remaining 6) nor the
post-trigger snapshot (player 2, remaining 10). -/
theorem trigger_not_atomic_wrt_tick :
    stepsCE.length = 3
    ∧ tickObs g0CE stepsCE 4 1 1 1 = some (2, 6)
    ∧ snapshotObs g0CE 4 = some (1, 6)
    ∧ snapshotObs (gAt g0CE stepsCE stepsCE.length) 4 = some (2, 10)
    ∧ tickObs g0CE stepsCE 4 1 1 1 ≠ snapshotObs g0CE 4
    ∧ tickObs g0CE stepsCE 4 1 1 1
        ≠ snapshotObs (gAt g0CE stepsCE stepsCE.length) 4 := by
  decide

end Buzzer
